import Mathlib

/-!
Verification of the Asteroid Dodge simulation core (`src/game.js`).

The JavaScript source works on IEEE doubles; following the spec's own data
model ("position (x, y: real-valued)") we embed the arithmetic over exact
numbers: `ℚ` wherever only ring operations and comparisons occur (surge
timers, asteroid kinematics, score lists, spawn geometry), and `ℝ` where
`Math.sqrt` is involved (ship movement normalisation, Euclidean distance).
Randomness (`rand`, `randInt`) is modelled by oracle parameters constrained
to the interval the call site draws from.
-/

namespace AsteroidDodge

/-! ## CONFIG (src/game.js lines 8-40) -/

namespace CONFIG

def canvasWidth : ℚ := 600
def canvasHeight : ℚ := 600
def shipSpeed : ℚ := 340
def shipSize : ℚ := 4
def asteroidBaseSpeed : ℚ := 155
def asteroidSpeedVariance : ℚ := 90
def asteroidMinSize : ℚ := 4
def asteroidMaxSize : ℚ := 14
def asteroidSpawnInterval : ℚ := 200
def asteroidBatchSize : ℕ := 3
def surgeIntervalLo : ℚ := 5000
def surgeIntervalHi : ℚ := 10000
def surgeDurationLo : ℚ := 1500
def surgeDurationHi : ℚ := 2500
def surgeMultiplier : ℚ := 1.5
def maxScoresSaved : ℕ := 10

end CONFIG

/-! ## Utility helpers (src/game.js lines 46-62)

`dist` uses `Math.sqrt`; we embed it over `ℝ`. `clamp` is used by the ship,
also over `ℝ`. `rand`/`randInt` are nondeterministic and appear as oracle
parameters at each call site instead. -/

noncomputable def dist (x1 y1 x2 y2 : ℝ) : ℝ :=
  Real.sqrt ((x1 - x2) * (x1 - x2) + (y1 - y2) * (y1 - y2))

def clamp (val lo hi : ℝ) : ℝ := max lo (min hi val)

/-! ## Collision check (src/game.js lines 494-502)

`updatePlaying` ends the run when `dist(ship, asteroid) <
(ship.size + asteroid.size) * 0.8`. -/

def shipHit (sx sy ax ay rs ra : ℝ) : Prop :=
  dist sx sy ax ay < (rs + ra) * 0.8

/-! ## SurgeController (src/game.js lines 408-412 and 505-527)

The surge fields of `Game`: `surgeActive`, `surgeTimer`,
`surgeDurationTimer`, `speedMultiplier`. `updateSurge(dt)` converts `dt`
(seconds) to ms, decrements the timer of the current mode, and fires at
most one transition; the `rand(...)` the fired branch performs is the
oracle argument `rIdle` (next `surgeTimer`) resp. `rDur` (next
`surgeDurationTimer`). -/

structure SurgeState where
  surgeActive : Bool
  surgeTimer : ℚ
  surgeDurationTimer : ℚ
  speedMultiplier : ℚ
  deriving DecidableEq, Repr

def updateSurge (dt rIdle rDur : ℚ) (st : SurgeState) : SurgeState :=
  let dtMs := dt * 1000
  if st.surgeActive then
    let t := st.surgeDurationTimer - dtMs
    if t ≤ 0 then
      { surgeActive := false, surgeTimer := rIdle, surgeDurationTimer := t,
        speedMultiplier := 1 }
    else
      { st with surgeDurationTimer := t }
  else
    let t := st.surgeTimer - dtMs
    if t ≤ 0 then
      { surgeActive := true, surgeTimer := t, surgeDurationTimer := rDur,
        speedMultiplier := CONFIG.surgeMultiplier }
    else
      { st with surgeTimer := t }

/-- One frame input to the surge controller: the elapsed seconds plus the
two random draws the update would use if the corresponding transition
fires. -/
structure SurgeFrame where
  dt : ℚ
  rIdle : ℚ
  rDur : ℚ
  deriving DecidableEq, Repr

def runSurge (l : List SurgeFrame) (st : SurgeState) : SurgeState :=
  l.foldl (fun s f => updateSurge f.dt f.rIdle f.rDur s) st

/-- Total elapsed time of a frame list, in milliseconds (each frame's `dt`
is in seconds, as handed to `updateSurge`). -/
def elapsedMs (l : List SurgeFrame) : ℚ :=
  (l.map (fun f => f.dt * 1000)).sum

/-- `startGame` (src/game.js lines 408-412): Idle, `surgeTimer`
randomised in `[surgeInterval[0], surgeInterval[1])`, duration timer 0,
multiplier 1; then the run evolves by `updateSurge` steps with `dt ≥ 0`
and randomised draws in their configured ranges. -/
inductive ReachableSurge : SurgeState → Prop
  | init (r : ℚ) (hlo : CONFIG.surgeIntervalLo ≤ r) (hhi : r < CONFIG.surgeIntervalHi) :
      ReachableSurge
        { surgeActive := false, surgeTimer := r, surgeDurationTimer := 0,
          speedMultiplier := 1 }
  | step (st : SurgeState) (dt rI rD : ℚ) (hst : ReachableSurge st)
      (hdt : 0 ≤ dt)
      (hIlo : CONFIG.surgeIntervalLo ≤ rI) (hIhi : rI < CONFIG.surgeIntervalHi)
      (hDlo : CONFIG.surgeDurationLo ≤ rD) (hDhi : rD < CONFIG.surgeDurationHi) :
      ReachableSurge (updateSurge dt rI rD st)

/-- The countdown of the current mode: time until surge end when active,
time until next surge when idle. -/
def currentCountdown (st : SurgeState) : ℚ :=
  if st.surgeActive then st.surgeDurationTimer else st.surgeTimer

/-! ## Ship (src/game.js lines 132-160)

`Ship.update(dt, keys)` builds a movement vector from the held keys
(arrow keys or WASD), normalises it when nonzero with `Math.sqrt`,
integrates, and clamps into the canvas. Embedded over `ℝ` because of the
square root. The key-state mapping is the eight booleans the code reads. -/

structure Keys where
  arrowLeft : Bool
  arrowRight : Bool
  arrowUp : Bool
  arrowDown : Bool
  a : Bool
  d : Bool
  w : Bool
  s : Bool
  deriving DecidableEq, Repr

structure Ship where
  x : ℝ
  y : ℝ
  size : ℝ

/-- `new Ship(x, y)` sets `size = CONFIG.shipSize`. -/
def Ship.new (x y : ℝ) : Ship :=
  { x := x, y := y, size := (CONFIG.shipSize : ℝ) }

/-- The raw (pre-clamp) position `Ship.update` computes: the `let dx/dy`
accumulation, normalisation by `len = Math.sqrt(dx*dx+dy*dy)` when
positive, and `pos += d * CONFIG.shipSpeed * dt`. -/
noncomputable def Ship.moveRaw (dt : ℝ) (k : Keys) (sh : Ship) : ℝ × ℝ :=
  let dx : ℝ := 0
  let dy : ℝ := 0
  let dx := if k.arrowLeft || k.a then dx - 1 else dx
  let dx := if k.arrowRight || k.d then dx + 1 else dx
  let dy := if k.arrowUp || k.w then dy - 1 else dy
  let dy := if k.arrowDown || k.s then dy + 1 else dy
  let len := Real.sqrt (dx * dx + dy * dy)
  let dx := if len > 0 then dx / len else dx
  let dy := if len > 0 then dy / len else dy
  (sh.x + dx * (CONFIG.shipSpeed : ℝ) * dt, sh.y + dy * (CONFIG.shipSpeed : ℝ) * dt)

/-- `Ship.update`: raw move, then clamp both coordinates into
`[size, canvas - size]`. -/
noncomputable def Ship.update (dt : ℝ) (k : Keys) (sh : Ship) : Ship :=
  let p := Ship.moveRaw dt k sh
  { x := clamp p.1 sh.size ((CONFIG.canvasWidth : ℝ) - sh.size),
    y := clamp p.2 sh.size ((CONFIG.canvasHeight : ℝ) - sh.size),
    size := sh.size }

/-! ## Asteroid kinematics (src/game.js lines 258-264)

`Asteroid.update(dt, speedMultiplier)` rescales the fixed base velocity
by the multiplier afresh, then integrates position and rotation. Only
ring operations, so embedded over `ℚ`; the randomly constructed fields
(`baseVx`, `baseVy`, `rotationSpeed`, `size`) are arbitrary state. -/

structure Asteroid where
  x : ℚ
  y : ℚ
  baseVx : ℚ
  baseVy : ℚ
  vx : ℚ
  vy : ℚ
  rotation : ℚ
  rotationSpeed : ℚ
  size : ℚ
  deriving DecidableEq, Repr

def Asteroid.update (dt speedMultiplier : ℚ) (ast : Asteroid) : Asteroid :=
  let vx := ast.baseVx * speedMultiplier
  let vy := ast.baseVy * speedMultiplier
  { ast with
    vx := vx, vy := vy,
    x := ast.x + vx * dt, y := ast.y + vy * dt,
    rotation := ast.rotation + ast.rotationSpeed * dt }

/-! ## Asteroid spawn position and culling
(src/game.js lines 211-256 and 266-274)

`_spawnFromEdge` picks `edge = randInt(0, 3)` and places the asteroid
just outside that edge: the off-edge coordinate is `±margin` beyond the
field with `margin = size + 5`, the along-edge coordinate is
`rand(0, W)` resp. `rand(0, H)` (the oracle `t`). The aim point and
velocity draw do not affect the position, so they are omitted here.
`isOffScreen` culls beyond a margin of `size + 60`. -/

def spawnPos (edge : Fin 4) (t size : ℚ) : ℚ × ℚ :=
  let margin := size + 5
  match edge with
  | 0 => (t, -margin)
  | 1 => (CONFIG.canvasWidth + margin, t)
  | 2 => (t, CONFIG.canvasHeight + margin)
  | 3 => (-margin, t)

def isOffScreen (x y size : ℚ) : Prop :=
  let margin := size + 60
  x < -margin ∨ x > CONFIG.canvasWidth + margin ∨
  y < -margin ∨ y > CONFIG.canvasHeight + margin

instance (x y size : ℚ) : Decidable (isOffScreen x y size) := by
  unfold isOffScreen; infer_instance

/-! ## Score persistence (src/game.js lines 68-103)

`localStorage` and `JSON.parse` are the host medium; we model what the
code can observe of the persisted value. `Stored.jsonArray` is a value
that reads and parses to an array of numbers; `Stored.jsonNonArray` is a
value that parses fine but is not an array (a number, string, object,
...), on which `scores.sort`/`scores.push` is a `TypeError`. Arrays with
non-number elements are outside this model. JavaScript's
`Array.prototype.sort` is a stable sort; with comparator
`(a, b) => b - a` on numbers it sorts descending, modelled by the stable
`List.insertionSort` under `b ≤ a`. -/

inductive Stored where
  | throwsOnRead : Stored
  | absent : Stored
  | emptyString : Stored
  | invalidJson : Stored
  | jsonArray (l : List ℚ) : Stored
  | jsonNonArray : Stored
  deriving DecidableEq, Repr

inductive LoadedVal where
  | list (l : List ℚ) : LoadedVal
  | nonArray : LoadedVal
  deriving DecidableEq, Repr

inductive JsError where
  | typeError : JsError
  deriving DecidableEq, Repr

/-- `ScoreManager._load`: `try { raw = getItem(key); return raw ?
JSON.parse(raw) : [] } catch { return [] }`. A read that throws or a
parse that throws is caught; `null` and `""` are falsy. -/
def scoreLoad : Stored → LoadedVal
  | .throwsOnRead => .list []
  | .absent => .list []
  | .emptyString => .list []
  | .invalidJson => .list []
  | .jsonArray l => .list l
  | .jsonNonArray => .nonArray

/-- The descending stable sort `scores.sort((a, b) => b - a)`. -/
def sortDesc (l : List ℚ) : List ℚ :=
  l.insertionSort (fun a b => b ≤ a)

/-- `ScoreManager.getScores`: `this._load().sort((a, b) => b - a)` —
calling `.sort` on a non-array loaded value is a `TypeError` that is not
caught. -/
def getScores (st : Stored) : Except JsError (List ℚ) :=
  match scoreLoad st with
  | .list l => .ok (sortDesc l)
  | .nonArray => .error .typeError

/-- `ScoreManager.getBest`: first entry of `getScores()` or `0`. -/
def getBest (st : Stored) : Except JsError ℚ :=
  match getScores st with
  | .ok scores =>
    .ok (match scores with
         | [] => 0
         | top :: _ => top)
  | .error e => .error e

/-- `ScoreManager.addScore` with the cap as an explicit parameter (the
code reads `CONFIG.maxScoresSaved`): load, push, sort descending, save
the first `maxSaved`. `writeFails` models `localStorage.setItem`
throwing (storage full): the `catch` swallows it, so the persisted value
is unchanged. -/
def addScoreWith (maxSaved : ℕ) (st : Stored) (writeFails : Bool) (score : ℚ) :
    Except JsError Stored :=
  match scoreLoad st with
  | .nonArray => .error .typeError
  | .list l =>
    let scores := sortDesc (l ++ [score])
    if writeFails then .ok st
    else .ok (.jsonArray (scores.take maxSaved))

def addScore (st : Stored) (writeFails : Bool) (score : ℚ) :
    Except JsError Stored :=
  addScoreWith CONFIG.maxScoresSaved st writeFails score

/-! ## Spawn batching (src/game.js lines 477-484)

Within `updatePlaying`: `spawnTimer += dt * 1000; if (spawnTimer >=
interval) { spawnTimer -= interval; push asteroidBatchSize new
Asteroid() }`. The randomly constructed new asteroids come from the
oracle `mk`. -/

def spawnStep (mk : ℕ → Asteroid) (dt spawnTimer : ℚ)
    (asteroids : List Asteroid) : ℚ × List Asteroid :=
  let timer := spawnTimer + dt * 1000
  if timer ≥ CONFIG.asteroidSpawnInterval then
    (timer - CONFIG.asteroidSpawnInterval,
     asteroids ++ (List.range CONFIG.asteroidBatchSize).map mk)
  else
    (timer, asteroids)

/-! ## Named key combinations used in the movement theorems -/

def keysUpLeft : Keys :=
  { arrowLeft := true, arrowRight := false, arrowUp := true, arrowDown := false,
    a := false, d := false, w := false, s := false }

def keysLeftOnly : Keys :=
  { arrowLeft := true, arrowRight := false, arrowUp := false, arrowDown := false,
    a := false, d := false, w := false, s := false }

def keysNone : Keys :=
  { arrowLeft := false, arrowRight := false, arrowUp := false, arrowDown := false,
    a := false, d := false, w := false, s := false }

/-- The surge data invariant: idle states carry multiplier 1 and a
strictly positive time-to-next-surge; active states carry the configured
multiplier and a strictly positive time-to-surge-end. -/
def surgeInv (st : SurgeState) : Prop :=
  (st.surgeActive = false → st.speedMultiplier = 1 ∧ 0 < st.surgeTimer) ∧
  (st.surgeActive = true →
    st.speedMultiplier = CONFIG.surgeMultiplier ∧ 0 < st.surgeDurationTimer)

end AsteroidDodge

/-! # Theorems -/

namespace AsteroidDodge

/-! ## Generic helper lemmas -/

theorem clamp_mem (v lo hi : ℝ) (h : lo ≤ hi) :
    lo ≤ clamp v lo hi ∧ clamp v lo hi ≤ hi :=
  ⟨le_max_left _ _, max_le h (min_le_left _ _)⟩

theorem clamp_of_mem (v lo hi : ℝ) (h1 : lo ≤ v) (h2 : v ≤ hi) :
    clamp v lo hi = v := by
  unfold clamp
  rw [min_eq_right h2, max_eq_right h1]

theorem elapsedMs_nil : elapsedMs [] = 0 := rfl

theorem elapsedMs_cons (f : SurgeFrame) (l : List SurgeFrame) :
    elapsedMs (f :: l) = f.dt * 1000 + elapsedMs l := by
  simp [elapsedMs]

theorem elapsedMs_append (l1 l2 : List SurgeFrame) :
    elapsedMs (l1 ++ l2) = elapsedMs l1 + elapsedMs l2 := by
  simp [elapsedMs]

theorem elapsedMs_nonneg (l : List SurgeFrame) (h : ∀ f ∈ l, 0 ≤ f.dt) :
    0 ≤ elapsedMs l := by
  induction l with
  | nil => simp [elapsedMs]
  | cons f rest ih =>
    rw [elapsedMs_cons]
    have hf : 0 ≤ f.dt := h f (by simp)
    have hrest : 0 ≤ elapsedMs rest := ih (fun g hg => h g (by simp [hg]))
    have : 0 ≤ f.dt * 1000 := by positivity
    linarith

theorem runSurge_nil (st : SurgeState) : runSurge [] st = st := rfl

theorem runSurge_cons (f : SurgeFrame) (l : List SurgeFrame) (st : SurgeState) :
    runSurge (f :: l) st = runSurge l (updateSurge f.dt f.rIdle f.rDur st) := rfl

theorem runSurge_append (l1 l2 : List SurgeFrame) (st : SurgeState) :
    runSurge (l1 ++ l2) st = runSurge l2 (runSurge l1 st) := by
  simp [runSurge]

/-! ## C5: asteroid speed-multiplier scaling -/

/-- C5: for any asteroid, any `dt ≥ 0` and multiplier `m ≥ 0`, one update
at multiplier `m` displaces the position by exactly `m` times the
displacement the same update would produce at multiplier 1; the base
velocity is never mutated by updates, so an earlier update with any other
`dt'`, `m'` leaves the displacement produced by a subsequent
`update dt m` unchanged. -/
theorem asteroid_multiplier_scaling_c5 (ast : Asteroid) (dt m dt' m' : ℚ)
    (hdt : 0 ≤ dt) (hm : 0 ≤ m) :
    ((ast.update dt m).x - ast.x = m * ((ast.update dt 1).x - ast.x) ∧
     (ast.update dt m).y - ast.y = m * ((ast.update dt 1).y - ast.y)) ∧
    ((ast.update dt' m').baseVx = ast.baseVx ∧
     (ast.update dt' m').baseVy = ast.baseVy) ∧
    (((ast.update dt' m').update dt m).x - (ast.update dt' m').x =
       (ast.update dt m).x - ast.x ∧
     ((ast.update dt' m').update dt m).y - (ast.update dt' m').y =
       (ast.update dt m).y - ast.y) := by
  refine ⟨⟨?_, ?_⟩, ⟨?_, ?_⟩, ?_, ?_⟩ <;> simp [Asteroid.update] <;> ring

/-- Witness for C5 at a concrete asteroid and concrete parameters. -/
theorem asteroid_multiplier_scaling_c5_witness :
    (0:ℚ) ≤ 2 ∧ (0:ℚ) ≤ 3 ∧
    ((((Asteroid.mk 1 2 3 4 0 0 0 5 6).update 2 3).x - 1 =
        3 * (((Asteroid.mk 1 2 3 4 0 0 0 5 6).update 2 1).x - 1) ∧
      (((Asteroid.mk 1 2 3 4 0 0 0 5 6).update 2 3).y - 2 =
        3 * (((Asteroid.mk 1 2 3 4 0 0 0 5 6).update 2 1).y - 2)) ) ∧
     ((((Asteroid.mk 1 2 3 4 0 0 0 5 6).update 7 9).baseVx = 3 ∧
       ((Asteroid.mk 1 2 3 4 0 0 0 5 6).update 7 9).baseVy = 4)) ∧
     ((((Asteroid.mk 1 2 3 4 0 0 0 5 6).update 7 9).update 2 3).x -
         ((Asteroid.mk 1 2 3 4 0 0 0 5 6).update 7 9).x =
        ((Asteroid.mk 1 2 3 4 0 0 0 5 6).update 2 3).x - 1 ∧
      (((Asteroid.mk 1 2 3 4 0 0 0 5 6).update 7 9).update 2 3).y -
         ((Asteroid.mk 1 2 3 4 0 0 0 5 6).update 7 9).y =
        ((Asteroid.mk 1 2 3 4 0 0 0 5 6).update 2 3).y - 2)) :=
  ⟨by norm_num, by norm_num,
   asteroid_multiplier_scaling_c5 (Asteroid.mk 1 2 3 4 0 0 0 5 6) 2 3 7 9
     (by norm_num) (by norm_num)⟩

/-! ## C7: addScore ordering and truncation -/

/-- C7: `addScore` pushes the new duration, sorts descending, and
persists only the first `maxScoresSaved` entries: from stored
`[10, 5, 3]` with cap 10, adding 8 persists `[10, 8, 5, 3]`; from stored
`[10, 5]` with cap 2, adding 8 persists `[10, 8]`. -/
theorem addScore_examples_c7 :
    addScoreWith 10 (Stored.jsonArray [10, 5, 3]) false 8 =
      Except.ok (Stored.jsonArray [10, 8, 5, 3]) ∧
    addScoreWith 2 (Stored.jsonArray [10, 5]) false 8 =
      Except.ok (Stored.jsonArray [10, 8]) ∧
    addScore (Stored.jsonArray [10, 5, 3]) false 8 =
      Except.ok (Stored.jsonArray [10, 8, 5, 3]) :=
  ⟨rfl, rfl, rfl⟩

/-! ## C9: spawn timer accumulation and batching -/

/-- C9: each playing-state update adds `dt * 1000` to the spawn timer;
when the result reaches the configured interval, exactly one batch of
`asteroidBatchSize` asteroids is appended and the interval is subtracted
(remainder preserved); otherwise nothing is spawned and the timer keeps
its accumulated value. -/
theorem spawn_batch_c9 (mk : ℕ → Asteroid) (dt spawnTimer : ℚ)
    (asteroids : List Asteroid) (hdt : 0 ≤ dt) :
    (CONFIG.asteroidSpawnInterval ≤ spawnTimer + dt * 1000 →
       (spawnStep mk dt spawnTimer asteroids).1 =
         spawnTimer + dt * 1000 - CONFIG.asteroidSpawnInterval ∧
       (spawnStep mk dt spawnTimer asteroids).2 =
         asteroids ++ (List.range CONFIG.asteroidBatchSize).map mk ∧
       (spawnStep mk dt spawnTimer asteroids).2.length =
         asteroids.length + CONFIG.asteroidBatchSize) ∧
    (spawnTimer + dt * 1000 < CONFIG.asteroidSpawnInterval →
       (spawnStep mk dt spawnTimer asteroids).1 = spawnTimer + dt * 1000 ∧
       (spawnStep mk dt spawnTimer asteroids).2 = asteroids) := by
  unfold spawnStep
  constructor
  · intro hfire
    rw [if_pos (by exact hfire)]
    refine ⟨rfl, rfl, by simp⟩
  · intro hmiss
    rw [if_neg (by exact not_le.mpr hmiss)]
    exact ⟨rfl, rfl⟩

/-- Witness for C9: timer 150 plus a 100 ms frame crosses the 200 ms
interval, leaving remainder 50 and three new asteroids. -/
theorem spawn_batch_c9_witness :
    (0:ℚ) ≤ 1/10 ∧
    (CONFIG.asteroidSpawnInterval ≤ 150 + (1/10) * 1000 →
       (spawnStep (fun _ => Asteroid.mk 0 0 0 0 0 0 0 0 4) (1/10) 150 []).1 =
         150 + (1/10) * 1000 - CONFIG.asteroidSpawnInterval ∧
       (spawnStep (fun _ => Asteroid.mk 0 0 0 0 0 0 0 0 4) (1/10) 150 []).2 =
         [] ++ (List.range CONFIG.asteroidBatchSize).map
           (fun _ => Asteroid.mk 0 0 0 0 0 0 0 0 4) ∧
       (spawnStep (fun _ => Asteroid.mk 0 0 0 0 0 0 0 0 4) (1/10) 150 []).2.length =
         List.length ([] : List Asteroid) + CONFIG.asteroidBatchSize) ∧
    (150 + (1/10) * 1000 < CONFIG.asteroidSpawnInterval →
       (spawnStep (fun _ => Asteroid.mk 0 0 0 0 0 0 0 0 4) (1/10) 150 []).1 =
         150 + (1/10) * 1000 ∧
       (spawnStep (fun _ => Asteroid.mk 0 0 0 0 0 0 0 0 4) (1/10) 150 []).2 = []) :=
  ⟨by norm_num,
   spawn_batch_c9 (fun _ => Asteroid.mk 0 0 0 0 0 0 0 0 4) (1/10) 150 []
     (by norm_num)⟩

/-! ## C10: freshly spawned asteroids are not off-screen -/

/-- C10: a freshly constructed asteroid sits outside the field by exactly
`size + 5` along its chosen edge with the along-edge coordinate inside
the field, which is strictly inside the culling margin `size + 60`, so
`isOffScreen` is false immediately after construction. -/
theorem fresh_asteroid_onscreen_c10 (edge : Fin 4) (t size : ℚ)
    (ht0 : 0 ≤ t) (htW : t ≤ CONFIG.canvasWidth) (htH : t ≤ CONFIG.canvasHeight)
    (hs0 : CONFIG.asteroidMinSize ≤ size) (hs1 : size ≤ CONFIG.asteroidMaxSize) :
    ¬ isOffScreen (spawnPos edge t size).1 (spawnPos edge t size).2 size := by
  have hW : CONFIG.canvasWidth = 600 := rfl
  have hH : CONFIG.canvasHeight = 600 := rfl
  have hmin : CONFIG.asteroidMinSize = 4 := rfl
  have hmax : CONFIG.asteroidMaxSize = 14 := rfl
  rw [hW] at htW
  rw [hH] at htH
  rw [hmin] at hs0
  rw [hmax] at hs1
  fin_cases edge <;>
    · simp only [spawnPos, isOffScreen, hW, hH]
      push_neg
      refine ⟨by linarith, by linarith, by linarith, by linarith⟩

/-- Witness for C10 on the top edge with the smallest asteroid size. -/
theorem fresh_asteroid_onscreen_c10_witness :
    (0:ℚ) ≤ 300 ∧ (300:ℚ) ≤ CONFIG.canvasWidth ∧
    CONFIG.asteroidMinSize ≤ (4:ℚ) ∧
    ¬ isOffScreen (spawnPos 0 300 4).1 (spawnPos 0 300 4).2 4 :=
  ⟨by decide, by decide, by decide,
   fresh_asteroid_onscreen_c10 0 300 4 (by decide) (by decide) (by decide)
     (by decide) (by decide)⟩

/-! ## Mode-by-mode characterisation of `updateSurge` -/

theorem updateSurge_active_fire (dt rI rD : ℚ) (st : SurgeState)
    (hA : st.surgeActive = true) (h : st.surgeDurationTimer - dt * 1000 ≤ 0) :
    updateSurge dt rI rD st =
      { surgeActive := false, surgeTimer := rI,
        surgeDurationTimer := st.surgeDurationTimer - dt * 1000,
        speedMultiplier := 1 } := by
  unfold updateSurge
  rw [hA]
  simp [h]

theorem updateSurge_active_stay (dt rI rD : ℚ) (st : SurgeState)
    (hA : st.surgeActive = true) (h : 0 < st.surgeDurationTimer - dt * 1000) :
    updateSurge dt rI rD st =
      { st with surgeDurationTimer := st.surgeDurationTimer - dt * 1000 } := by
  unfold updateSurge
  rw [hA]
  simp [not_le.mpr h]

theorem updateSurge_idle_fire (dt rI rD : ℚ) (st : SurgeState)
    (hA : st.surgeActive = false) (h : st.surgeTimer - dt * 1000 ≤ 0) :
    updateSurge dt rI rD st =
      { surgeActive := true, surgeTimer := st.surgeTimer - dt * 1000,
        surgeDurationTimer := rD, speedMultiplier := CONFIG.surgeMultiplier } := by
  unfold updateSurge
  rw [hA]
  simp [h]

theorem updateSurge_idle_stay (dt rI rD : ℚ) (st : SurgeState)
    (hA : st.surgeActive = false) (h : 0 < st.surgeTimer - dt * 1000) :
    updateSurge dt rI rD st =
      { st with surgeTimer := st.surgeTimer - dt * 1000 } := by
  unfold updateSurge
  rw [hA]
  simp [not_le.mpr h]

/-! ## C3: surge invariant over all reachable states -/

theorem updateSurge_preserves_inv (dt rI rD : ℚ) (st : SurgeState)
    (hdt : 0 ≤ dt)
    (hIlo : CONFIG.surgeIntervalLo ≤ rI)
    (hDlo : CONFIG.surgeDurationLo ≤ rD)
    (hinv : surgeInv st) : surgeInv (updateSurge dt rI rD st) := by
  have hIpos : (0:ℚ) < rI := lt_of_lt_of_le (by norm_num [CONFIG.surgeIntervalLo]) hIlo
  have hDpos : (0:ℚ) < rD := lt_of_lt_of_le (by norm_num [CONFIG.surgeDurationLo]) hDlo
  obtain ⟨hidle, hact⟩ := hinv
  cases hA : st.surgeActive with
  | true =>
    obtain ⟨hm, hd⟩ := hact hA
    by_cases h : st.surgeDurationTimer - dt * 1000 ≤ 0
    · rw [updateSurge_active_fire dt rI rD st hA h]
      exact ⟨fun _ => ⟨rfl, hIpos⟩, fun hc => by simp at hc⟩
    · push_neg at h
      rw [updateSurge_active_stay dt rI rD st hA h]
      exact ⟨fun hc => by rw [hA] at hc; simp at hc, fun _ => ⟨hm, h⟩⟩
  | false =>
    obtain ⟨hm, hd⟩ := hidle hA
    by_cases h : st.surgeTimer - dt * 1000 ≤ 0
    · rw [updateSurge_idle_fire dt rI rD st hA h]
      exact ⟨fun hc => by simp at hc, fun _ => ⟨rfl, hDpos⟩⟩
    · push_neg at h
      rw [updateSurge_idle_stay dt rI rD st hA h]
      exact ⟨fun _ => ⟨hm, h⟩, fun hc => by rw [hA] at hc; simp at hc⟩

theorem reachable_surgeInv (st : SurgeState) (h : ReachableSurge st) :
    surgeInv st := by
  induction h with
  | init r hlo hhi =>
    refine ⟨fun _ => ⟨rfl, ?_⟩, fun hc => by simp at hc⟩
    have : (0:ℚ) < CONFIG.surgeIntervalLo := by norm_num [CONFIG.surgeIntervalLo]
    linarith
  | step st dt rI rD hst hdt hIlo hIhi hDlo hDhi ih =>
    exact updateSurge_preserves_inv dt rI rD st hdt hIlo hDlo ih

/-- C3: in every surge state reachable from run start, the speed
multiplier is 1 exactly when the surge is inactive, and the countdown of
the current mode (time to next surge when idle, time to surge end when
active) is non-negative. -/
theorem surge_invariant_c3 (st : SurgeState) (h : ReachableSurge st) :
    (st.speedMultiplier = 1 ↔ st.surgeActive = false) ∧
    0 ≤ currentCountdown st := by
  obtain ⟨hidle, hact⟩ := reachable_surgeInv st h
  unfold currentCountdown
  cases hA : st.surgeActive with
  | false =>
    obtain ⟨hm, ht⟩ := hidle hA
    exact ⟨⟨fun _ => rfl, fun _ => hm⟩, by simp [hA, le_of_lt ht]⟩
  | true =>
    obtain ⟨hm, ht⟩ := hact hA
    refine ⟨⟨fun hc => ?_, fun hc => by simp [hA] at hc⟩, by simp [hA, le_of_lt ht]⟩
    rw [hm] at hc
    norm_num [CONFIG.surgeMultiplier] at hc

/-- Witness for C3 at the freshly initialised state with countdown
6000 ms. -/
theorem surge_invariant_c3_witness :
    ((SurgeState.mk false 6000 0 1).speedMultiplier = 1 ↔
      (SurgeState.mk false 6000 0 1).surgeActive = false) ∧
    0 ≤ currentCountdown (SurgeState.mk false 6000 0 1) :=
  surge_invariant_c3 (SurgeState.mk false 6000 0 1)
    (ReachableSurge.init 6000 (by decide) (by decide))

/-! ## C8: score persistence is never fatal — corrected

The code's `try`/`catch` covers a throwing read and unparseable JSON,
but a persisted value that parses to a non-array (for instance the
string `"42"` in the store, which `JSON.parse` turns into the number 42)
reaches `scores.sort(...)` resp. `scores.push(...)`, which is an
uncaught `TypeError`. -/

/-- C8 counterexample: with a persisted value that parses to a non-array
JSON datum, `getScores`, `getBest` and `addScore` all propagate a
`TypeError` to the caller, so "for every possible persisted value ...
without propagating any error" fails. -/
theorem score_persistence_counterexample_c8 :
    getScores Stored.jsonNonArray = Except.error JsError.typeError ∧
    getBest Stored.jsonNonArray = Except.error JsError.typeError ∧
    addScore Stored.jsonNonArray false 8 = Except.error JsError.typeError :=
  ⟨rfl, rfl, rfl⟩

/-- C8 amended: for every persisted value other than one parsing to a
non-array JSON datum, `getScores` returns a list (the empty list when
the value is missing, unreadable, empty, or unparseable), `getBest`
returns a number (0 in those cases), no error is propagated, and a
failing write in `addScore` is swallowed, leaving the persisted value
unchanged. -/
theorem score_persistence_total_c8 (st : Stored)
    (h : st ≠ Stored.jsonNonArray) :
    (∃ l, getScores st = Except.ok l) ∧
    (∃ q, getBest st = Except.ok q) ∧
    ((st = Stored.throwsOnRead ∨ st = Stored.absent ∨
      st = Stored.emptyString ∨ st = Stored.invalidJson) →
      getScores st = Except.ok [] ∧ getBest st = Except.ok 0) ∧
    (∀ score : ℚ, addScore st true score = Except.ok st) := by
  cases st with
  | jsonNonArray => exact absurd rfl h
  | jsonArray l =>
    refine ⟨⟨sortDesc l, rfl⟩, ?_, ?_, fun score => rfl⟩
    · cases hsort : sortDesc l with
      | nil => exact ⟨0, by simp [getBest, getScores, scoreLoad, hsort]⟩
      | cons top rest => exact ⟨top, by simp [getBest, getScores, scoreLoad, hsort]⟩
    · rintro (hc | hc | hc | hc) <;> exact Stored.noConfusion hc
  | throwsOnRead => exact ⟨⟨[], rfl⟩, ⟨0, rfl⟩, fun _ => ⟨rfl, rfl⟩, fun score => rfl⟩
  | absent => exact ⟨⟨[], rfl⟩, ⟨0, rfl⟩, fun _ => ⟨rfl, rfl⟩, fun score => rfl⟩
  | emptyString => exact ⟨⟨[], rfl⟩, ⟨0, rfl⟩, fun _ => ⟨rfl, rfl⟩, fun score => rfl⟩
  | invalidJson => exact ⟨⟨[], rfl⟩, ⟨0, rfl⟩, fun _ => ⟨rfl, rfl⟩, fun score => rfl⟩

/-! ## C2: surge state-machine transition behaviour -/

/-- Feeding an active surge a run of frames of zero total elapsed time
leaves the state untouched. -/
theorem runSurge_active_zeroSum (l : List SurgeFrame) : ∀ st : SurgeState,
    st.surgeActive = true → 0 < st.surgeDurationTimer →
    (∀ f ∈ l, 0 ≤ f.dt) → elapsedMs l = 0 →
    runSurge l st = st := by
  induction l with
  | nil => intro st _ _ _ _; rfl
  | cons f rest ih =>
    intro st hA hd hall hsum
    have hf : 0 ≤ f.dt := hall f (by simp)
    have hfr : 0 ≤ f.dt * 1000 := by positivity
    have hrest : 0 ≤ elapsedMs rest :=
      elapsedMs_nonneg rest (fun g hg => hall g (by simp [hg]))
    rw [elapsedMs_cons] at hsum
    have hz : f.dt * 1000 = 0 := by linarith
    have hstay : 0 < st.surgeDurationTimer - f.dt * 1000 := by rw [hz]; linarith
    rw [runSurge_cons, updateSurge_active_stay f.dt f.rIdle f.rDur st hA hstay]
    have hrec : ({ st with surgeDurationTimer := st.surgeDurationTimer - f.dt * 1000 } : SurgeState) = st := by
      rw [hz, sub_zero]
    rw [hrec]
    exact ih st hA hd (fun g hg => hall g (by simp [hg])) (by linarith)

/-- From Idle with countdown `surgeTimer > 0`, any run of non-negative
frames whose total elapsed time is exactly the countdown ends Active with
the configured surge multiplier. -/
theorem runSurge_idle_total (l : List SurgeFrame) : ∀ st : SurgeState,
    st.surgeActive = false → 0 < st.surgeTimer →
    (∀ f ∈ l, 0 ≤ f.dt ∧ 0 < f.rDur) →
    elapsedMs l = st.surgeTimer →
    (runSurge l st).surgeActive = true ∧
    (runSurge l st).speedMultiplier = CONFIG.surgeMultiplier := by
  induction l with
  | nil =>
    intro st _ ht _ hsum
    rw [elapsedMs_nil] at hsum
    exact absurd hsum.symm (ne_of_gt ht)
  | cons f rest ih =>
    intro st hA ht hall hsum
    have hf : 0 ≤ f.dt := (hall f (by simp)).1
    have hfr : 0 ≤ f.dt * 1000 := by positivity
    have hrest : 0 ≤ elapsedMs rest :=
      elapsedMs_nonneg rest (fun g hg => (hall g (by simp [hg])).1)
    rw [elapsedMs_cons] at hsum
    by_cases h : st.surgeTimer - f.dt * 1000 ≤ 0
    · have h0 : elapsedMs rest = 0 := by linarith
      rw [runSurge_cons, updateSurge_idle_fire f.dt f.rIdle f.rDur st hA h]
      rw [runSurge_active_zeroSum rest _ rfl ((hall f (by simp)).2)
        (fun g hg => (hall g (by simp [hg])).1) h0]
      exact ⟨rfl, rfl⟩
    · push_neg at h
      rw [runSurge_cons, updateSurge_idle_stay f.dt f.rIdle f.rDur st hA h]
      exact ih { st with surgeTimer := st.surgeTimer - f.dt * 1000 }
        (by exact hA) (by exact h) (fun g hg => hall g (by simp [hg])) (by
          show elapsedMs rest = st.surgeTimer - f.dt * 1000
          linarith)

/-- While the fed elapsed time stays below an active surge's remaining
duration, the controller just decrements the duration timer. -/
theorem runSurge_active_partial (l : List SurgeFrame) : ∀ st : SurgeState,
    st.surgeActive = true →
    (∀ f ∈ l, 0 ≤ f.dt) →
    elapsedMs l < st.surgeDurationTimer →
    runSurge l st =
      { st with surgeDurationTimer := st.surgeDurationTimer - elapsedMs l } := by
  induction l with
  | nil =>
    intro st _ _ _
    rw [runSurge_nil, elapsedMs_nil, sub_zero]
  | cons f rest ih =>
    intro st hA hall hlt
    have hf : 0 ≤ f.dt := hall f (by simp)
    have hfr : 0 ≤ f.dt * 1000 := by positivity
    have hrest : 0 ≤ elapsedMs rest :=
      elapsedMs_nonneg rest (fun g hg => hall g (by simp [hg]))
    rw [elapsedMs_cons] at hlt
    have hstay : 0 < st.surgeDurationTimer - f.dt * 1000 := by linarith
    rw [runSurge_cons, updateSurge_active_stay f.dt f.rIdle f.rDur st hA hstay]
    rw [ih { st with surgeDurationTimer := st.surgeDurationTimer - f.dt * 1000 }
      (by exact hA) (fun g hg => hall g (by simp [hg])) (by
        show elapsedMs rest < st.surgeDurationTimer - f.dt * 1000
        linarith)]
    have harith : st.surgeDurationTimer - f.dt * 1000 - elapsedMs rest =
        st.surgeDurationTimer - elapsedMs (f :: rest) := by
      rw [elapsedMs_cons]; ring
    show ({ st with surgeDurationTimer := st.surgeDurationTimer - f.dt * 1000 - elapsedMs rest } : SurgeState) = _
    rw [harith, elapsedMs_cons]

/-- From Active, a run of non-negative frames whose proper prefixes stay
below the remaining duration and whose total reaches it ends Idle with
multiplier 1. -/
theorem runSurge_active_to_idle (l' : List SurgeFrame) (g : SurgeFrame)
    (st : SurgeState) (hA : st.surgeActive = true)
    (hall : ∀ f ∈ l' ++ [g], 0 ≤ f.dt)
    (hlt : elapsedMs l' < st.surgeDurationTimer)
    (hge : st.surgeDurationTimer ≤ elapsedMs (l' ++ [g])) :
    (runSurge (l' ++ [g]) st).surgeActive = false ∧
    (runSurge (l' ++ [g]) st).speedMultiplier = 1 := by
  rw [runSurge_append,
    runSurge_active_partial l' st hA (fun f hf => hall f (by simp [hf])) hlt]
  rw [elapsedMs_append, elapsedMs_cons, elapsedMs_nil] at hge
  have hfire :
      ({ st with surgeDurationTimer := st.surgeDurationTimer - elapsedMs l' } : SurgeState).surgeDurationTimer
        - g.dt * 1000 ≤ 0 := by
    show st.surgeDurationTimer - elapsedMs l' - g.dt * 1000 ≤ 0
    linarith
  rw [runSurge_cons, runSurge_nil, updateSurge_active_fire g.dt g.rIdle g.rDur
    { st with surgeDurationTimer := st.surgeDurationTimer - elapsedMs l' }
    (by exact hA) hfire]
  exact ⟨rfl, rfl⟩

/-- C2: (a) from Idle with countdown `C > 0`, feeding a total of exactly
`C` ms of elapsed time — in one call or split across several — leaves
the controller Active with the configured surge multiplier; (b) from
Active with remaining duration `T > 0`, feeding non-negative frames
whose total reaches `T` (crossing it on the last call) returns it to
Idle with multiplier 1; (c) a single update call fires at most one
transition no matter how large its elapsed-time argument: one huge call
from Idle lands Active, one huge call from Active lands Idle. -/
theorem surge_transitions_c2 :
    (∀ (C d0 m0 : ℚ) (l : List SurgeFrame),
       0 < C →
       (∀ f ∈ l, 0 ≤ f.dt ∧ 0 < f.rDur) →
       elapsedMs l = C →
       (runSurge l (SurgeState.mk false C d0 m0)).surgeActive = true ∧
       (runSurge l (SurgeState.mk false C d0 m0)).speedMultiplier =
         CONFIG.surgeMultiplier) ∧
    (∀ (t0 T m0 : ℚ) (l' : List SurgeFrame) (g : SurgeFrame),
       0 < T →
       (∀ f ∈ l' ++ [g], 0 ≤ f.dt) →
       elapsedMs l' < T →
       T ≤ elapsedMs (l' ++ [g]) →
       (runSurge (l' ++ [g]) (SurgeState.mk true t0 T m0)).surgeActive = false ∧
       (runSurge (l' ++ [g]) (SurgeState.mk true t0 T m0)).speedMultiplier = 1) ∧
    (∀ (st : SurgeState) (dt rI rD : ℚ),
       (st.surgeActive = false → st.surgeTimer ≤ dt * 1000 →
          (updateSurge dt rI rD st).surgeActive = true) ∧
       (st.surgeActive = true → st.surgeDurationTimer ≤ dt * 1000 →
          (updateSurge dt rI rD st).surgeActive = false)) := by
  refine ⟨?_, ?_, ?_⟩
  · intro C d0 m0 l hC hall hsum
    exact runSurge_idle_total l (SurgeState.mk false C d0 m0) rfl hC hall hsum
  · intro t0 T m0 l' g hT hall hlt hge
    exact runSurge_active_to_idle l' g (SurgeState.mk true t0 T m0) rfl hall hlt hge
  · intro st dt rI rD
    constructor
    · intro hA hge
      rw [updateSurge_idle_fire dt rI rD st hA (by linarith)]
    · intro hA hge
      rw [updateSurge_active_fire dt rI rD st hA (by linarith)]

/-- Witness for C2: a 2000 ms Idle countdown fed as two 1-second frames
becomes Active at multiplier 1.5; an Active surge with 2000 ms remaining
fed a single 2-second frame returns to Idle at multiplier 1; a huge
single frame from Idle lands Active (exactly one transition). -/
theorem surge_transitions_c2_witness :
    ((runSurge [SurgeFrame.mk 1 7000 2000, SurgeFrame.mk 1 7000 1800]
        (SurgeState.mk false 2000 0 1)).surgeActive = true ∧
     (runSurge [SurgeFrame.mk 1 7000 2000, SurgeFrame.mk 1 7000 1800]
        (SurgeState.mk false 2000 0 1)).speedMultiplier =
       CONFIG.surgeMultiplier) ∧
    ((runSurge ([] ++ [SurgeFrame.mk 2 6000 2000])
        (SurgeState.mk true 0 2000 1.5)).surgeActive = false ∧
     (runSurge ([] ++ [SurgeFrame.mk 2 6000 2000])
        (SurgeState.mk true 0 2000 1.5)).speedMultiplier = 1) ∧
    ((SurgeState.mk false 2000 0 1).surgeActive = false →
       (SurgeState.mk false 2000 0 1).surgeTimer ≤ 99999 * 1000 →
       (updateSurge 99999 7000 2000 (SurgeState.mk false 2000 0 1)).surgeActive = true) :=
  ⟨surge_transitions_c2.1 2000 0 1
     [SurgeFrame.mk 1 7000 2000, SurgeFrame.mk 1 7000 1800]
     (by norm_num) (by decide) (by norm_num [elapsedMs]),
   surge_transitions_c2.2.1 0 2000 1.5 [] (SurgeFrame.mk 2 6000 2000)
     (by norm_num) (by decide) (by norm_num [elapsedMs]) (by norm_num [elapsedMs]),
   (surge_transitions_c2.2.2 (SurgeState.mk false 2000 0 1) 99999 7000 2000).1⟩

/-- Witness for C8 (amended) at a missing persisted value. -/
theorem score_persistence_total_c8_witness :
    (∃ l, getScores Stored.absent = Except.ok l) ∧
    (∃ q, getBest Stored.absent = Except.ok q) ∧
    ((Stored.absent = Stored.throwsOnRead ∨ Stored.absent = Stored.absent ∨
      Stored.absent = Stored.emptyString ∨ Stored.absent = Stored.invalidJson) →
      getScores Stored.absent = Except.ok [] ∧
      getBest Stored.absent = Except.ok 0) ∧
    (∀ score : ℚ, addScore Stored.absent true score = Except.ok Stored.absent) :=
  score_persistence_total_c8 Stored.absent (by decide)

/-! ## C1: collision hitbox boundary -/

/-- C1: the playing-state collision check fires exactly when the
Euclidean centre distance is strictly below `0.8 * (rs + ra)`: an
asteroid at the ship's exact position triggers it, one at distance
exactly `0.8 * (rs + ra)` does not (strict `<`), one at
`0.79 * (rs + ra)` does. -/
theorem collision_hitbox_c1 (sx sy rs ra : ℝ) (h : 0 < rs + ra) :
    (∀ ax ay : ℝ, shipHit sx sy ax ay rs ra ↔
       AsteroidDodge.dist sx sy ax ay < (rs + ra) * 0.8) ∧
    shipHit sx sy sx sy rs ra ∧
    ¬ shipHit sx sy (sx + (rs + ra) * 0.8) sy rs ra ∧
    shipHit sx sy (sx + (rs + ra) * 0.79) sy rs ra := by
  have h08 : (0:ℝ) ≤ (rs + ra) * 0.8 := by nlinarith
  have h079 : (0:ℝ) ≤ (rs + ra) * 0.79 := by nlinarith
  refine ⟨fun ax ay => Iff.rfl, ?_, ?_, ?_⟩
  · unfold shipHit AsteroidDodge.dist
    have harg : (sx - sx) * (sx - sx) + (sy - sy) * (sy - sy) = 0 := by ring
    rw [harg, Real.sqrt_zero]
    nlinarith
  · unfold shipHit AsteroidDodge.dist
    have harg : (sx - (sx + (rs + ra) * 0.8)) * (sx - (sx + (rs + ra) * 0.8)) +
        (sy - sy) * (sy - sy) = ((rs + ra) * 0.8) * ((rs + ra) * 0.8) := by ring
    rw [harg, Real.sqrt_mul_self h08]
    exact lt_irrefl _
  · unfold shipHit AsteroidDodge.dist
    have harg : (sx - (sx + (rs + ra) * 0.79)) * (sx - (sx + (rs + ra) * 0.79)) +
        (sy - sy) * (sy - sy) = ((rs + ra) * 0.79) * ((rs + ra) * 0.79) := by ring
    rw [harg, Real.sqrt_mul_self h079]
    nlinarith

/-- Witness for C1 with ship radius 4 and asteroid radius 6. -/
theorem collision_hitbox_c1_witness :
    (0:ℝ) < 4 + 6 ∧
    ((∀ ax ay : ℝ, shipHit 0 0 ax ay 4 6 ↔
        AsteroidDodge.dist 0 0 ax ay < ((4:ℝ) + 6) * 0.8) ∧
     shipHit 0 0 0 0 4 6 ∧
     ¬ shipHit 0 0 (0 + ((4:ℝ) + 6) * 0.8) 0 4 6 ∧
     shipHit 0 0 (0 + ((4:ℝ) + 6) * 0.79) 0 4 6) :=
  ⟨by norm_num, collision_hitbox_c1 0 0 4 6 (by norm_num)⟩

/-! ## C4: ship position stays inside the field -/

/-- C4: for every `dt ≥ 0`, every starting position and every key
combination, the ship's position after `update` lies within
`[radius, fieldWidth - radius] × [radius, fieldHeight - radius]`. -/
theorem ship_bounds_c4 (sh : Ship) (dt : ℝ) (k : Keys)
    (hdt : 0 ≤ dt) (hsize : sh.size = ((CONFIG.shipSize : ℚ) : ℝ)) :
    ((CONFIG.shipSize : ℚ) : ℝ) ≤ (Ship.update dt k sh).x ∧
    (Ship.update dt k sh).x ≤
      ((CONFIG.canvasWidth : ℚ) : ℝ) - ((CONFIG.shipSize : ℚ) : ℝ) ∧
    ((CONFIG.shipSize : ℚ) : ℝ) ≤ (Ship.update dt k sh).y ∧
    (Ship.update dt k sh).y ≤
      ((CONFIG.canvasHeight : ℚ) : ℝ) - ((CONFIG.shipSize : ℚ) : ℝ) := by
  have h4 : ((CONFIG.shipSize : ℚ) : ℝ) = 4 := by norm_num [CONFIG.shipSize]
  have hW : ((CONFIG.canvasWidth : ℚ) : ℝ) = 600 := by norm_num [CONFIG.canvasWidth]
  have hH : ((CONFIG.canvasHeight : ℚ) : ℝ) = 600 := by norm_num [CONFIG.canvasHeight]
  have hx := clamp_mem (Ship.moveRaw dt k sh).1 sh.size
    (((CONFIG.canvasWidth : ℚ) : ℝ) - sh.size) (by rw [hsize, h4, hW]; norm_num)
  have hy := clamp_mem (Ship.moveRaw dt k sh).2 sh.size
    (((CONFIG.canvasHeight : ℚ) : ℝ) - sh.size) (by rw [hsize, h4, hH]; norm_num)
  have hux : (Ship.update dt k sh).x =
      clamp (Ship.moveRaw dt k sh).1 sh.size
        (((CONFIG.canvasWidth : ℚ) : ℝ) - sh.size) := rfl
  have huy : (Ship.update dt k sh).y =
      clamp (Ship.moveRaw dt k sh).2 sh.size
        (((CONFIG.canvasHeight : ℚ) : ℝ) - sh.size) := rfl
  rw [hux, huy, hsize] at *
  exact ⟨hx.1, hx.2, hy.1, hy.2⟩

/-- Witness for C4 with the ship constructed far above the field and no
keys held. -/
theorem ship_bounds_c4_witness :
    ((CONFIG.shipSize : ℚ) : ℝ) ≤ (Ship.update 0 keysNone (Ship.new 0 1000)).x ∧
    (Ship.update 0 keysNone (Ship.new 0 1000)).x ≤
      ((CONFIG.canvasWidth : ℚ) : ℝ) - ((CONFIG.shipSize : ℚ) : ℝ) ∧
    ((CONFIG.shipSize : ℚ) : ℝ) ≤ (Ship.update 0 keysNone (Ship.new 0 1000)).y ∧
    (Ship.update 0 keysNone (Ship.new 0 1000)).y ≤
      ((CONFIG.canvasHeight : ℚ) : ℝ) - ((CONFIG.shipSize : ℚ) : ℝ) :=
  ship_bounds_c4 (Ship.new 0 1000) 0 keysNone le_rfl rfl

/-! ## C6: diagonal speed equals axis speed -/

theorem moveRaw_upLeft (dt : ℝ) (sh : Ship) :
    Ship.moveRaw dt keysUpLeft sh =
      (sh.x + (-1 / Real.sqrt 2) * ((CONFIG.shipSpeed : ℚ) : ℝ) * dt,
       sh.y + (-1 / Real.sqrt 2) * ((CONFIG.shipSpeed : ℚ) : ℝ) * dt) := by
  unfold Ship.moveRaw keysUpLeft
  norm_num

theorem moveRaw_leftOnly (dt : ℝ) (sh : Ship) :
    Ship.moveRaw dt keysLeftOnly sh =
      (sh.x + -1 * ((CONFIG.shipSpeed : ℚ) : ℝ) * dt, sh.y) := by
  unfold Ship.moveRaw keysLeftOnly
  norm_num

theorem dist_diag (x y c : ℝ) (hc : 0 ≤ c) :
    AsteroidDodge.dist x y (x + -1 / Real.sqrt 2 * c) (y + -1 / Real.sqrt 2 * c) = c := by
  have h2 : Real.sqrt 2 * Real.sqrt 2 = 2 := Real.mul_self_sqrt (by norm_num)
  have hne : Real.sqrt 2 ≠ 0 := by positivity
  unfold AsteroidDodge.dist
  have harg : (x - (x + -1 / Real.sqrt 2 * c)) * (x - (x + -1 / Real.sqrt 2 * c)) +
      (y - (y + -1 / Real.sqrt 2 * c)) * (y - (y + -1 / Real.sqrt 2 * c)) = c * c := by
    field_simp
  rw [harg, Real.sqrt_mul_self hc]

theorem dist_axis (x y c : ℝ) (hc : 0 ≤ c) :
    AsteroidDodge.dist x y (x + -1 * c) y = c := by
  unfold AsteroidDodge.dist
  have harg : (x - (x + -1 * c)) * (x - (x + -1 * c)) + (y - y) * (y - y) = c * c := by
    ring
  rw [harg, Real.sqrt_mul_self hc]

/-- C6: for equal `dt ≥ 0`, holding two orthogonal directions (up and
left) moves the ship exactly as far as holding a single direction
(left): both displace it by `shipSpeed * dt`, provided the boundary
clamp leaves the moved position unchanged in each case. -/
theorem diagonal_speed_c6 (sh : Ship) (dt : ℝ) (hdt : 0 ≤ dt)
    (hdx : clamp (Ship.moveRaw dt keysUpLeft sh).1 sh.size
        (((CONFIG.canvasWidth : ℚ) : ℝ) - sh.size) = (Ship.moveRaw dt keysUpLeft sh).1)
    (hdy : clamp (Ship.moveRaw dt keysUpLeft sh).2 sh.size
        (((CONFIG.canvasHeight : ℚ) : ℝ) - sh.size) = (Ship.moveRaw dt keysUpLeft sh).2)
    (hsx : clamp (Ship.moveRaw dt keysLeftOnly sh).1 sh.size
        (((CONFIG.canvasWidth : ℚ) : ℝ) - sh.size) = (Ship.moveRaw dt keysLeftOnly sh).1)
    (hsy : clamp (Ship.moveRaw dt keysLeftOnly sh).2 sh.size
        (((CONFIG.canvasHeight : ℚ) : ℝ) - sh.size) = (Ship.moveRaw dt keysLeftOnly sh).2) :
    AsteroidDodge.dist sh.x sh.y (Ship.update dt keysUpLeft sh).x
        (Ship.update dt keysUpLeft sh).y = ((CONFIG.shipSpeed : ℚ) : ℝ) * dt ∧
    AsteroidDodge.dist sh.x sh.y (Ship.update dt keysLeftOnly sh).x
        (Ship.update dt keysLeftOnly sh).y = ((CONFIG.shipSpeed : ℚ) : ℝ) * dt := by
  have hspeed : (0:ℝ) ≤ ((CONFIG.shipSpeed : ℚ) : ℝ) * dt := by
    have : ((CONFIG.shipSpeed : ℚ) : ℝ) = 340 := by norm_num [CONFIG.shipSpeed]
    rw [this]; linarith
  have hux : (Ship.update dt keysUpLeft sh).x =
      clamp (Ship.moveRaw dt keysUpLeft sh).1 sh.size
        (((CONFIG.canvasWidth : ℚ) : ℝ) - sh.size) := rfl
  have huy : (Ship.update dt keysUpLeft sh).y =
      clamp (Ship.moveRaw dt keysUpLeft sh).2 sh.size
        (((CONFIG.canvasHeight : ℚ) : ℝ) - sh.size) := rfl
  have hvx : (Ship.update dt keysLeftOnly sh).x =
      clamp (Ship.moveRaw dt keysLeftOnly sh).1 sh.size
        (((CONFIG.canvasWidth : ℚ) : ℝ) - sh.size) := rfl
  have hvy : (Ship.update dt keysLeftOnly sh).y =
      clamp (Ship.moveRaw dt keysLeftOnly sh).2 sh.size
        (((CONFIG.canvasHeight : ℚ) : ℝ) - sh.size) := rfl
  rw [hux, huy, hvx, hvy, hdx, hdy, hsx, hsy, moveRaw_upLeft, moveRaw_leftOnly]
  constructor
  · have hd := dist_diag sh.x sh.y (((CONFIG.shipSpeed : ℚ) : ℝ) * dt) hspeed
    rw [show sh.x + -1 / Real.sqrt 2 * ((CONFIG.shipSpeed : ℚ) : ℝ) * dt =
      sh.x + -1 / Real.sqrt 2 * (((CONFIG.shipSpeed : ℚ) : ℝ) * dt) by ring]
    rw [show sh.y + -1 / Real.sqrt 2 * ((CONFIG.shipSpeed : ℚ) : ℝ) * dt =
      sh.y + -1 / Real.sqrt 2 * (((CONFIG.shipSpeed : ℚ) : ℝ) * dt) by ring]
    exact hd
  · have hd := dist_axis sh.x sh.y (((CONFIG.shipSpeed : ℚ) : ℝ) * dt) hspeed
    rw [show sh.x + -1 * ((CONFIG.shipSpeed : ℚ) : ℝ) * dt =
      sh.x + -1 * (((CONFIG.shipSpeed : ℚ) : ℝ) * dt) by ring]
    exact hd

/-- Witness for C6 at the field centre with `dt = 0`, where the clamp is
a no-op. -/
theorem diagonal_speed_c6_witness :
    AsteroidDodge.dist ((Ship.new 300 300).x) ((Ship.new 300 300).y)
        (Ship.update 0 keysUpLeft (Ship.new 300 300)).x
        (Ship.update 0 keysUpLeft (Ship.new 300 300)).y =
      ((CONFIG.shipSpeed : ℚ) : ℝ) * 0 ∧
    AsteroidDodge.dist ((Ship.new 300 300).x) ((Ship.new 300 300).y)
        (Ship.update 0 keysLeftOnly (Ship.new 300 300)).x
        (Ship.update 0 keysLeftOnly (Ship.new 300 300)).y =
      ((CONFIG.shipSpeed : ℚ) : ℝ) * 0 :=
  diagonal_speed_c6 (Ship.new 300 300) 0 le_rfl
    (by rw [moveRaw_upLeft]
        norm_num [Ship.new, clamp, CONFIG.shipSize, CONFIG.canvasWidth])
    (by rw [moveRaw_upLeft]
        norm_num [Ship.new, clamp, CONFIG.shipSize, CONFIG.canvasHeight])
    (by rw [moveRaw_leftOnly]
        norm_num [Ship.new, clamp, CONFIG.shipSize, CONFIG.canvasWidth])
    (by rw [moveRaw_leftOnly]
        norm_num [Ship.new, clamp, CONFIG.shipSize, CONFIG.canvasHeight])

end AsteroidDodge
